import Mathlib

/-!
Shallow embedding of `badgify/recipe.py` (django-badgify).

The recipe module drives a badge-awarding pipeline: fetch-or-create a badge
by slug, diff currently-eligible user ids against already-awarded user ids,
chunk the unawarded ids and bulk-insert award rows, and keep a denormalized
users counter in sync.

The external ORM (Django) is modelled as explicit state passing over a `DB`
value; a query set carries the database alias it would run against, so that
read-replica routing is observable.  Python exceptions are modelled with
`Except PyError`; every state-changing operation returns the database state
at the moment it returns or raises.
-/

/-- Python exceptions that the recipe module can raise or catch. -/
inductive PyError where
  | integrityError
  | typeError (msg : String)
  | nameError (missing : String)
  | attributeError (msg : String)
deriving DecidableEq

/-- A badge row: unique slug, display name, optional description, image
reference and the denormalized count of awarded users. -/
structure BadgeRec where
  slug : String
  name : String
  description : Option String
  image : String
  users_count : Nat
deriving DecidableEq

/-- An award row: links one user (by id) to one badge (by slug). -/
structure AwardRec where
  user : Nat
  badge : String
deriving DecidableEq

/-- The relational store the recipe operates on. -/
structure DB where
  badges : List BadgeRec
  awards : List AwardRec
deriving DecidableEq

/-- A Django query set, reduced to the list of fetched values plus the
database alias the query runs against. -/
structure QuerySet (α : Type) where
  items : List α
  dbAlias : String
deriving DecidableEq

/-- `django.db.DEFAULT_DB_ALIAS`: the alias a query set targets until a
`.using(...)` call redirects it. -/
def DEFAULT_DB_ALIAS : String := "default"

/-- `QuerySet.using(alias)`: redirect the query to another database alias. -/
def QuerySet.usingDb (qs : QuerySet α) (a : String) : QuerySet α :=
  { qs with dbAlias := a }

/-- A concrete recipe: the class attributes of `BaseRecipe` that the module
reads.  `user_ids` is `none` when the property is left at its default
(`None` in Python) and `some qs` when a subclass returns a query set. -/
structure Recipe where
  name : String
  slug : String
  description : Option String
  image : String
  db_read : String
  max_awards_per_create : Nat
  user_ids : Option (QuerySet Nat)

/-- The `badge` property: `Badge.objects.get(slug=self.slug)`, with
`Badge.DoesNotExist` mapped to `None`. -/
def Recipe.badge (r : Recipe) (db : DB) : Option BadgeRec :=
  db.badges.find? (fun b => b.slug == r.slug)

/-- Ids of the users awarded a given badge: the rows behind
`badge.users` (the m2m relation through `Award`). -/
def badge_user_ids (db : DB) (slug : String) : List Nat :=
  (db.awards.filter (fun a => a.badge == slug)).map (fun a => a.user)

/-- Modelled from the spec: `badgify.models.Badge` is not under `src/`.
Spec section 3 says a badge is "identified by a unique slug", so the ORM
`Badge.objects.create` raises `IntegrityError` exactly when a badge with the
same slug already exists, and otherwise appends the new row. -/
def Badge_objects_create (db : DB) (b : BadgeRec) : DB × Except PyError BadgeRec :=
  if db.badges.any (fun x => x.slug == b.slug) then
    (db, Except.error PyError.integrityError)
  else
    ({ db with badges := db.badges ++ [b] }, Except.ok b)

/-- `BaseRecipe.create_badge`: fetch the badge by slug; when absent, create
it, catching `IntegrityError` (a concurrent creation) and flagging
`failed = True` instead of raising.  `concurrent` is the list of badge rows
other processes insert between the initial fetch and the create.
`newBadge` is the row built from the `kwargs` of the create call. -/
def newBadge (r : Recipe) : BadgeRec :=
  { slug := r.slug, name := r.name, description := r.description,
    image := r.image, users_count := 0 }

def Recipe.create_badge (r : Recipe) (db : DB) (concurrent : List BadgeRec) :
    DB × Except PyError (Option BadgeRec × Bool × Bool) :=
  match Recipe.badge r db with
  | some b => (db, Except.ok (some b, false, false))
  | none =>
    match Badge_objects_create { db with badges := db.badges ++ concurrent } (newBadge r) with
    | (db2, Except.ok b) => (db2, Except.ok (some b, true, false))
    | (db2, Except.error PyError.integrityError) =>
        (db2, Except.ok (none, false, true))
    | (db2, Except.error e) => (db2, Except.error e)

/-- Python truthiness of the `user_ids` property value: `None` and an empty
query set are falsy. -/
def pyTruthy : Option (QuerySet Nat) → Bool
  | none => false
  | some qs => !qs.items.isEmpty

/-- `BaseRecipe.can_perform_awarding`: `user_ids` must be truthy and the
badge must exist in the database. -/
def Recipe.can_perform_awarding (r : Recipe) (db : DB) : Bool :=
  pyTruthy r.user_ids && (Recipe.badge r db).isSome

/-- `BaseRecipe.get_already_awarded_user_ids`: the ids behind
`self.badge.users.values_list(id, flat=True)`.  The query set is built from
the related manager of `self.badge` with no `.using(...)` call, so it runs
against `DEFAULT_DB_ALIAS` (the log line nonetheless prints `self.db_read`).
`none` models the `AttributeError` raised when the badge does not exist. -/
def Recipe.get_already_awarded_user_ids (r : Recipe) (db : DB) : Option (QuerySet Nat) :=
  (Recipe.badge r db).map
    (fun _ => { items := badge_user_ids db r.slug, dbAlias := DEFAULT_DB_ALIAS })

/-- `BaseRecipe.get_current_user_ids`: `self.user_ids.using(self.db_read)`.
`none` models the `AttributeError` raised when `user_ids` is `None`. -/
def Recipe.get_current_user_ids (r : Recipe) : Option (QuerySet Nat) :=
  r.user_ids.map (fun qs => qs.usingDb r.db_read)

/-- `list(set(current) - set(already))`: the distinct current ids that are
not already awarded, as a list. -/
def pySetDiff (cur old : List Nat) : List Nat :=
  cur.dedup.filter (fun x => decide (x ∉ old))

/-- `BaseRecipe.get_unawarded_user_ids`: set difference of the two fetches,
paired with its length (`unawarded_ids_count`). -/
def Recipe.get_unawarded_user_ids (r : Recipe) (db : DB) : Option (List Nat × Nat) :=
  match Recipe.get_already_awarded_user_ids r db, Recipe.get_current_user_ids r with
  | some aq, some cq =>
    let unawarded := pySetDiff cq.items aq.items
    some (unawarded, unawarded.length)
  | _, _ => none

/-- Fuel-driven worker for `chunks`; the fuel is the list length, enough
whenever the chunk size is positive. -/
def chunksFuel : Nat → List Nat → Nat → List (List Nat)
  | 0, _, _ => []
  | _ + 1, [], _ => []
  | f + 1, x :: xs, n => (x :: xs).take n :: chunksFuel f ((x :: xs).drop n) n

/-- Modelled from the spec: `badgify.utils.chunks` is imported by the recipe
module but its source is not under `src/`.  Spec section 4.3 says "Partition
unawarded identifiers into fixed-size chunks", so this is the partition of a
list into consecutive chunks of size `n` (the last chunk possibly shorter);
for `n = 0` no chunks are produced. -/
def chunks (l : List Nat) (n : Nat) : List (List Nat) :=
  if n = 0 then [] else chunksFuel l.length l n

/-- The parameters of `_bulk_create_awards` after `self`, exactly as in the
source `def _bulk_create_awards(self):` — there are none. -/
def bulk_create_awards_extra_params : List String := []

/-- A call `self._bulk_create_awards(args...)`.  Python matches the
positional arguments against the signature before running the body: any
argument raises `TypeError` (the signature takes only `self`), and with no
argument the body's first statement `count = len(objects)` raises
`NameError` because `objects` is unbound.  Either way the database is
untouched and the `try`/`except IntegrityError` block is never entered. -/
def Recipe.bulk_create_awards (_r : Recipe) (db : DB) (args : List (List AwardRec)) :
    DB × Except PyError Unit :=
  if args.length = bulk_create_awards_extra_params.length then
    (db, Except.error (PyError.nameError "objects"))
  else
    (db, Except.error (PyError.typeError
      "_bulk_create_awards() takes 1 positional argument but 2 were given"))

/-- The award rows built for one chunk:
`[Award(user=user, badge=self.badge) for user in User.objects...filter(id__in=user_ids)]`. -/
def awardsForChunk (r : Recipe) (c : List Nat) : List AwardRec :=
  c.map (fun u => { user := u, badge := r.slug })

/-- The `for user_ids in chunks(...)` loop of `save_award_objects`: each
iteration calls `self._bulk_create_awards([...])` with one positional
argument; an exception aborts the loop and propagates. -/
def save_award_loop (r : Recipe) : DB → List (List Nat) → DB × Except PyError Unit
  | db, [] => (db, Except.ok ())
  | db, c :: rest =>
    match Recipe.bulk_create_awards r db [awardsForChunk r c] with
    | (db1, Except.ok _) => save_award_loop r db1 rest
    | (db1, Except.error e) => (db1, Except.error e)

/-- `BaseRecipe.save_award_objects`: compute the unawarded ids, return at
once when there are none, otherwise chunk them and run the creation loop. -/
def Recipe.save_award_objects (r : Recipe) (db : DB) : DB × Except PyError Unit :=
  match Recipe.get_unawarded_user_ids r db with
  | none => (db, Except.error (PyError.attributeError "NoneType"))
  | some (unawarded, _count) =>
    if unawarded.isEmpty then (db, Except.ok ())
    else save_award_loop r db (chunks unawarded r.max_awards_per_create)

/-- `BaseRecipe.create_awards`: guard with `can_perform_awarding`, then
delegate to `save_award_objects`. -/
def Recipe.create_awards (r : Recipe) (db : DB) : DB × Except PyError Unit :=
  if Recipe.can_perform_awarding r db then Recipe.save_award_objects r db
  else (db, Except.ok ())

/-- The value returned by `update_badge_users_count` in first position: the
badge object in the normal path, the bare slug string when the badge does
not exist. -/
inductive BadgeOrSlug where
  | badge (b : BadgeRec)
  | slug (s : String)
deriving DecidableEq

/-- `badge.save()` after mutating `users_count`: replace the row with the
same slug. -/
def DB.saveBadge (db : DB) (b : BadgeRec) : DB :=
  { db with badges := db.badges.map (fun x => if x.slug == b.slug then b else x) }

/-- `BaseRecipe.update_badge_users_count`: denormalize the live count
`badge.users.count()` into `users_count`, saving only on mismatch. -/
def Recipe.update_badge_users_count (r : Recipe) (db : DB) :
    DB × BadgeOrSlug × Bool :=
  match Recipe.badge r db with
  | none => (db, BadgeOrSlug.slug r.slug, false)
  | some b =>
    if b.users_count ≠ (badge_user_ids db r.slug).length then
      (DB.saveBadge db { b with users_count := (badge_user_ids db r.slug).length },
       BadgeOrSlug.badge { b with users_count := (badge_user_ids db r.slug).length },
       true)
    else
      (db, BadgeOrSlug.badge b, false)

/-! ## Helper lemmas -/

theorem pySetDiff_toFinset (cur old : List Nat) :
    (pySetDiff cur old).toFinset = cur.toFinset \ old.toFinset := by
  ext a
  simp [pySetDiff, List.mem_filter, List.mem_dedup]

theorem pySetDiff_nodup (cur old : List Nat) : (pySetDiff cur old).Nodup :=
  (List.nodup_dedup cur).filter _

theorem chunks_of_ne_nil (l : List Nat) (n : Nat) (hl : l ≠ []) (hn : 0 < n) :
    ∃ c rest, chunks l n = c :: rest := by
  cases l with
  | nil => exact absurd rfl hl
  | cons x xs =>
    refine ⟨(x :: xs).take n, chunksFuel xs.length ((x :: xs).drop n) n, ?_⟩
    unfold chunks
    rw [if_neg (Nat.pos_iff_ne_zero.mp hn)]
    simp only [List.length_cons]
    rfl

theorem save_award_loop_cons (r : Recipe) (db : DB) (c : List Nat)
    (rest : List (List Nat)) :
    save_award_loop r db (c :: rest) =
      (db, Except.error (PyError.typeError
        "_bulk_create_awards() takes 1 positional argument but 2 were given")) :=
  rfl

/-! ## Concrete inputs for witnesses and counterexamples -/

def qsC1 : QuerySet Nat := { items := [1, 2, 3], dbAlias := DEFAULT_DB_ALIAS }

def bC1 : BadgeRec :=
  { slug := "s", name := "Star", description := none, image := "i", users_count := 1 }

def rC1 : Recipe :=
  { name := "Star", slug := "s", description := none, image := "i",
    db_read := DEFAULT_DB_ALIAS, max_awards_per_create := 2, user_ids := some qsC1 }

def dbC1 : DB := { badges := [bC1], awards := [{ user := 1, badge := "s" }] }

/-! ## Claims -/

/-- C1: for every set A of already-awarded user ids and every set B of
currently-eligible user ids, `get_unawarded_user_ids` returns exactly the
set difference B minus A as a list together with its count, and the count
equals the length of the returned list. -/
theorem C1_unawarded_is_set_difference (r : Recipe) (db : DB) (qs : QuerySet Nat)
    (b : BadgeRec) (hu : r.user_ids = some qs) (hb : Recipe.badge r db = some b) :
    ∃ l : List Nat,
      Recipe.get_unawarded_user_ids r db = some (l, l.length) ∧
      l.toFinset = qs.items.toFinset \ (badge_user_ids db r.slug).toFinset ∧
      l.Nodup := by
  refine ⟨pySetDiff qs.items (badge_user_ids db r.slug), ?_, ?_, ?_⟩
  · unfold Recipe.get_unawarded_user_ids Recipe.get_already_awarded_user_ids
      Recipe.get_current_user_ids
    rw [hu, hb]
    rfl
  · exact pySetDiff_toFinset qs.items (badge_user_ids db r.slug)
  · exact pySetDiff_nodup qs.items (badge_user_ids db r.slug)

/-- Witness for C1 at a concrete recipe and store: eligible ids [1, 2, 3],
already awarded [1]. -/
theorem C1_witness :
    ∃ l : List Nat,
      Recipe.get_unawarded_user_ids rC1 dbC1 = some (l, l.length) ∧
      l.toFinset = qsC1.items.toFinset \ (badge_user_ids dbC1 rC1.slug).toFinset ∧
      l.Nodup :=
  C1_unawarded_is_set_difference rC1 dbC1 qsC1 bC1 rfl rfl

/-- C2: a uniqueness (IntegrityError) violation raised during badge creation
or during bulk award creation is caught and logged inside the operation and
never propagated to the caller: `create_badge` always returns normally, and
`_bulk_create_awards` never lets an IntegrityError escape. -/
theorem C2_integrity_error_not_propagated (r : Recipe) (db : DB)
    (concurrent : List BadgeRec) (args : List (List AwardRec)) :
    (∃ v, (Recipe.create_badge r db concurrent).2 = Except.ok v) ∧
    (Recipe.bulk_create_awards r db args).2 ≠ Except.error PyError.integrityError := by
  constructor
  · unfold Recipe.create_badge Badge_objects_create
    cases hb : Recipe.badge r db with
    | some b => exact ⟨_, rfl⟩
    | none =>
      dsimp only
      by_cases hc : ((db.badges ++ concurrent).any fun x => x.slug == (newBadge r).slug) = true
      · rw [if_pos hc]
        exact ⟨_, rfl⟩
      · rw [if_neg hc]
        exact ⟨_, rfl⟩
  · unfold Recipe.bulk_create_awards
    split
    · simp
    · simp

def rC2 : Recipe :=
  { name := "C", slug := "c", description := none, image := "i",
    db_read := DEFAULT_DB_ALIAS, max_awards_per_create := 2, user_ids := none }

/-- Witness for C2 at a concrete recipe and an empty store. -/
theorem C2_witness :
    (∃ v, (Recipe.create_badge rC2 { badges := [], awards := [] } []).2 = Except.ok v) ∧
    (Recipe.bulk_create_awards rC2 { badges := [], awards := [] } []).2 ≠
      Except.error PyError.integrityError :=
  C2_integrity_error_not_propagated rC2 { badges := [], awards := [] } [] []

def bC3 : BadgeRec :=
  { slug := "t", name := "T", description := none, image := "i", users_count := 0 }

def rC3 : Recipe :=
  { name := "T", slug := "t", description := none, image := "i",
    db_read := DEFAULT_DB_ALIAS, max_awards_per_create := 2,
    user_ids := some { items := [1], dbAlias := DEFAULT_DB_ALIAS } }

def dbC3 : DB := { badges := [bC3], awards := [] }

/-- C3 (code behavior at the failing input): with one eligible user and no
existing award, `create_awards` raises TypeError and leaves the store
unchanged, so the eligible user is still unawarded afterwards — the first
run never moves eligible users into the already-awarded set, contradicting
the claimed idempotence mechanism (the second run, on the unchanged store,
again finds the unawarded set [1], not the empty set). -/
theorem C3_first_run_awards_nothing :
    Recipe.create_awards rC3 dbC3 =
      (dbC3, Except.error (PyError.typeError
        "_bulk_create_awards() takes 1 positional argument but 2 were given")) ∧
    Recipe.get_unawarded_user_ids rC3 dbC3 = some ([1], 1) ∧
    badge_user_ids dbC3 rC3.slug = [] :=
  ⟨rfl, rfl, rfl⟩

def bC4 : BadgeRec :=
  { slug := "u", name := "U", description := none, image := "i", users_count := 0 }

def rC4 : Recipe :=
  { name := "U", slug := "u", description := none, image := "i",
    db_read := "replica", max_awards_per_create := 2,
    user_ids := some { items := [1], dbAlias := DEFAULT_DB_ALIAS } }

def dbC4 : DB := { badges := [bC4], awards := [] }

/-- C4 counterexample: with `db_read = "replica"`, the already-awarded fetch
is built without `.using(self.db_read)` and therefore runs against the
default alias, not the configured read replica. -/
theorem C4_counterexample :
    Recipe.get_already_awarded_user_ids rC4 dbC4 =
      some { items := [], dbAlias := DEFAULT_DB_ALIAS } ∧
    DEFAULT_DB_ALIAS ≠ rC4.db_read :=
  ⟨rfl, by decide⟩

/-- C4 amended: only the currently-eligible fetch (`get_current_user_ids`)
runs against the configured `db_read` alias; the already-awarded fetch
(`get_already_awarded_user_ids`) runs against the default alias, even
though its log line reports `db_read`. -/
theorem C4_amended_fetch_aliases (r : Recipe) (db : DB) (b : BadgeRec)
    (qs : QuerySet Nat) (hb : Recipe.badge r db = some b) (hu : r.user_ids = some qs) :
    (∃ aq, Recipe.get_already_awarded_user_ids r db = some aq ∧
      aq.dbAlias = DEFAULT_DB_ALIAS) ∧
    (∃ cq, Recipe.get_current_user_ids r = some cq ∧ cq.dbAlias = r.db_read) := by
  constructor
  · refine ⟨{ items := badge_user_ids db r.slug, dbAlias := DEFAULT_DB_ALIAS }, ?_, rfl⟩
    simp [Recipe.get_already_awarded_user_ids, hb]
  · refine ⟨qs.usingDb r.db_read, ?_, rfl⟩
    simp [Recipe.get_current_user_ids, hu]

/-- Witness for C4 amended at the concrete recipe with a replica alias. -/
theorem C4_amended_witness :
    (∃ aq, Recipe.get_already_awarded_user_ids rC4 dbC4 = some aq ∧
      aq.dbAlias = DEFAULT_DB_ALIAS) ∧
    (∃ cq, Recipe.get_current_user_ids rC4 = some cq ∧ cq.dbAlias = rC4.db_read) :=
  C4_amended_fetch_aliases rC4 dbC4 bC4
    { items := [1], dbAlias := DEFAULT_DB_ALIAS } rfl rfl

/-- C5: for every nonempty list of unawarded user ids (and a positive
configured chunk size), `save_award_objects` raises TypeError before
inserting any award: `_bulk_create_awards` is defined with no parameter for
the award objects yet is invoked with a one-element argument list, so the
bulk-insert-with-logging path is unreachable and the store is returned
unchanged. -/
theorem C5_save_award_objects_raises_typeerror (r : Recipe) (db : DB)
    (l : List Nat) (n : Nat)
    (h1 : Recipe.get_unawarded_user_ids r db = some (l, n)) (h2 : l ≠ [])
    (h3 : 0 < r.max_awards_per_create) :
    Recipe.save_award_objects r db =
      (db, Except.error (PyError.typeError
        "_bulk_create_awards() takes 1 positional argument but 2 were given")) := by
  obtain ⟨c, rest, hc⟩ := chunks_of_ne_nil l r.max_awards_per_create h2 h3
  cases l with
  | nil => exact absurd rfl h2
  | cons x xs =>
    unfold Recipe.save_award_objects
    rw [h1]
    show save_award_loop r db (chunks (x :: xs) r.max_awards_per_create) = _
    rw [hc]
    exact save_award_loop_cons r db c rest

/-- Witness for C5 at the concrete store of C3: unawarded ids [1]. -/
theorem C5_witness :
    Recipe.save_award_objects rC3 dbC3 =
      (dbC3, Except.error (PyError.typeError
        "_bulk_create_awards() takes 1 positional argument but 2 were given")) :=
  C5_save_award_objects_raises_typeerror rC3 dbC3 [1] 1 rfl (by decide) (by decide)

def bC6 : BadgeRec :=
  { slug := "w", name := "W", description := none, image := "i", users_count := 0 }

def rC6 : Recipe :=
  { name := "W", slug := "w", description := none, image := "i",
    db_read := DEFAULT_DB_ALIAS, max_awards_per_create := 2,
    user_ids := some { items := [1, 2, 3], dbAlias := DEFAULT_DB_ALIAS } }

def dbC6 : DB := { badges := [bC6], awards := [] }

/-- C6 (code behavior at the failing input): the unawarded ids are indeed
partitioned into consecutive chunks of size at most `max_awards_per_create`
(here 2), but no chunk is ever inserted: the first per-chunk call to
`_bulk_create_awards` raises TypeError and the store is unchanged. -/
theorem C6_chunks_bounded_but_no_insert :
    chunks [1, 2, 3, 4, 5] 2 = [[1, 2], [3, 4], [5]] ∧
    (∀ c ∈ chunks [1, 2, 3, 4, 5] 2, c.length ≤ 2) ∧
    Recipe.get_unawarded_user_ids rC6 dbC6 = some ([1, 2, 3], 3) ∧
    Recipe.save_award_objects rC6 dbC6 =
      (dbC6, Except.error (PyError.typeError
        "_bulk_create_awards() takes 1 positional argument but 2 were given")) :=
  ⟨rfl, by decide, rfl, rfl⟩

/-- C7: when `user_ids` is empty or undefined, or the badge does not exist
in the database, `create_awards` short-circuits: `can_perform_awarding`
returns false and the store is returned unchanged with no exception. -/
theorem C7_short_circuit (r : Recipe) (db : DB)
    (h : pyTruthy r.user_ids = false ∨ Recipe.badge r db = none) :
    Recipe.can_perform_awarding r db = false ∧
    Recipe.create_awards r db = (db, Except.ok ()) := by
  have hc : Recipe.can_perform_awarding r db = false := by
    unfold Recipe.can_perform_awarding
    rcases h with h | h
    · rw [h]
      rfl
    · rw [h]
      simp
  refine ⟨hc, ?_⟩
  unfold Recipe.create_awards
  rw [hc]
  rfl

def rC7 : Recipe :=
  { name := "N", slug := "n", description := none, image := "i",
    db_read := DEFAULT_DB_ALIAS, max_awards_per_create := 2, user_ids := none }

def dbC7 : DB := { badges := [], awards := [] }

/-- Witness for C7: `user_ids` left at its `None` default. -/
theorem C7_witness :
    Recipe.can_perform_awarding rC7 dbC7 = false ∧
    Recipe.create_awards rC7 dbC7 = (dbC7, Except.ok ()) :=
  C7_short_circuit rC7 dbC7 (Or.inl rfl)

def bC8 : BadgeRec :=
  { slug := "v", name := "V", description := none, image := "i", users_count := 0 }

def rC8 : Recipe :=
  { name := "V", slug := "v", description := none, image := "i",
    db_read := DEFAULT_DB_ALIAS, max_awards_per_create := 2, user_ids := none }

def dbC8 : DB := { badges := [], awards := [] }

/-- C8 counterexample: the badge is absent at the initial fetch, a
concurrent process creates it, and the create raises IntegrityError; the
operation returns badge `none` with `failed = true` — while the existing
badge object in the store is `bC8` — so the returned badge is not the
existing badge object. -/
theorem C8_counterexample :
    Recipe.create_badge rC8 dbC8 [bC8] =
      ({ badges := [bC8], awards := [] }, Except.ok (none, false, true)) ∧
    Recipe.badge rC8 { badges := [bC8], awards := [] } = some bC8 :=
  ⟨rfl, rfl⟩

/-- C8 amended: `create_badge` fetches the badge by slug and creates it when
absent; when a concurrent creation causes a uniqueness violation the
operation does not fail (no exception escapes), but it returns badge `none`
with `created = false` and `failed = true` rather than the existing badge
object. -/
theorem C8_amended_race_is_flagged_not_fatal (r : Recipe) (db : DB)
    (concurrent : List BadgeRec) (hnone : Recipe.badge r db = none)
    (hconf : ((db.badges ++ concurrent).any fun x => x.slug == (newBadge r).slug) = true) :
    Recipe.create_badge r db concurrent =
      ({ db with badges := db.badges ++ concurrent },
       Except.ok (none, false, true)) := by
  unfold Recipe.create_badge Badge_objects_create
  rw [hnone]
  dsimp only
  rw [if_pos hconf]

/-- Witness for C8 amended at the concrete race of the counterexample. -/
theorem C8_amended_witness :
    Recipe.create_badge rC8 dbC8 [bC8] =
      ({ dbC8 with badges := dbC8.badges ++ [bC8] },
       Except.ok (none, false, true)) :=
  C8_amended_race_is_flagged_not_fatal rC8 dbC8 [bC8] rfl rfl

/-- C9: `update_badge_users_count` compares the stored `users_count` to the
live count of awarded users and writes back only on mismatch: when equal,
the store is unchanged and `(badge, false)` is returned; when different,
`users_count` is set to the live count, the badge is saved, and
`(badge, true)` is returned. -/
theorem C9_users_count_synced_only_on_mismatch (r : Recipe) (db : DB)
    (b : BadgeRec) (hb : Recipe.badge r db = some b) :
    (b.users_count = (badge_user_ids db r.slug).length →
      Recipe.update_badge_users_count r db = (db, BadgeOrSlug.badge b, false)) ∧
    (b.users_count ≠ (badge_user_ids db r.slug).length →
      Recipe.update_badge_users_count r db =
        (DB.saveBadge db { b with users_count := (badge_user_ids db r.slug).length },
         BadgeOrSlug.badge { b with users_count := (badge_user_ids db r.slug).length },
         true)) := by
  unfold Recipe.update_badge_users_count
  rw [hb]
  dsimp only
  constructor
  · intro h
    rw [if_neg (not_not_intro h)]
  · intro h
    rw [if_pos h]

def bC9 : BadgeRec :=
  { slug := "x", name := "X", description := none, image := "i", users_count := 1 }

def rC9 : Recipe :=
  { name := "X", slug := "x", description := none, image := "i",
    db_read := DEFAULT_DB_ALIAS, max_awards_per_create := 2, user_ids := none }

def dbC9 : DB := { badges := [bC9], awards := [{ user := 1, badge := "x" }] }

/-- Witness for C9: stored count 1 equals the live count 1, so no save is
issued and the updated flag is false. -/
theorem C9_witness :
    Recipe.update_badge_users_count rC9 dbC9 = (dbC9, BadgeOrSlug.badge bC9, false) :=
  (C9_users_count_synced_only_on_mismatch rC9 dbC9 bC9 rfl).1 rfl

/-- C10: when the badge does not exist, `update_badge_users_count` performs
no write and returns the pair `(slug, false)` — the slug string in place of
a badge object — whereas whenever the badge exists it returns a badge
object together with the updated flag. -/
theorem C10_return_shape_depends_on_badge (r : Recipe) (db : DB) :
    (Recipe.badge r db = none →
      Recipe.update_badge_users_count r db = (db, BadgeOrSlug.slug r.slug, false)) ∧
    (∀ b, Recipe.badge r db = some b →
      ∃ b2 u, (Recipe.update_badge_users_count r db).2 = (BadgeOrSlug.badge b2, u)) := by
  constructor
  · intro h
    unfold Recipe.update_badge_users_count
    rw [h]
  · intro b h
    unfold Recipe.update_badge_users_count
    rw [h]
    dsimp only
    by_cases hc : b.users_count ≠ (badge_user_ids db r.slug).length
    · rw [if_pos hc]
      exact ⟨_, _, rfl⟩
    · rw [if_neg hc]
      exact ⟨_, _, rfl⟩

def rC10 : Recipe :=
  { name := "Y", slug := "y", description := none, image := "i",
    db_read := DEFAULT_DB_ALIAS, max_awards_per_create := 2, user_ids := none }

def dbC10 : DB := { badges := [], awards := [] }

/-- Witness for C10: with no badge row, the slug string is returned with no
write and a false flag. -/
theorem C10_witness :
    Recipe.update_badge_users_count rC10 dbC10 =
      (dbC10, BadgeOrSlug.slug rC10.slug, false) :=
  (C10_return_shape_depends_on_badge rC10 dbC10).1 rfl
